import Mathlib

/-!
Verification of the GPU solver descriptor-building layer
(`jaxlib/gpu/solver.cc`).

The file shallowly embeds the descriptor builders: each C++ builder becomes a
Lean function parameterised by a `SolverApi` record that models the vendor
library's `…_bufferSize` entry points and the solver-handle pool.  Machine
integers (`int`, `std::int64_t`, `size_t` products) are modelled as `Int` with
explicit two's-complement wrapping where the C++ code narrows or can overflow.
Resource acquisition and release (the pooled handle's RAII borrow object and
the `std::unique_ptr` cleanups for `syevjInfo`/`gesvdjInfo`) are made explicit
as an event trace emitted alongside each result, mirroring the C++ destructor
semantics on every exit path, including exceptional ones.
-/

/-- Element kinds of the solver layer (`SolverType` in the C++ source):
F32, F64, C64, C128. -/
inductive SolverType
  | F32
  | F64
  | C64
  | C128
deriving DecidableEq

/-- Fill mode flag (`gpusolverFillMode_t`): lower or upper triangle. -/
inductive FillMode
  | lower
  | upper
deriving DecidableEq

/-- Eigenvector computation mode (`gpusolverEigMode_t`). -/
inductive EigMode
  | vector
  | novector
deriving DecidableEq

/-- The two vendor back-ends selected by conditional compilation
(`JAX_GPU_CUDA` present or absent). -/
inductive Backend
  | cuda
  | rocm
deriving DecidableEq

/-- Errors surfaced by the builders: an unsupported dtype from the resolver
(carrying the rejected kind character and byte width, as the C++ message
embeds the repr of the rejected dtype), or a non-success status from the
handle pool or an accelerator size query (carrying the status code). -/
inductive SolverError
  | unsupportedDtype (kind : Char) (itemsize : Nat)
  | statusError (code : Int)
deriving DecidableEq

deriving instance DecidableEq for Except

/-- Resource events modelling the RAII side effects of a builder call:
the pooled handle borrow/release and the scoped algorithm-parameter
objects created for the Jacobi eigendecomposition and Jacobi SVD. -/
inductive Event
  | borrowHandle
  | releaseHandle
  | createSyevjInfo
  | destroySyevjInfo
  | createGesvdjInfo
  | destroyGesvdjInfo
deriving DecidableEq

/-- Width in bytes of one element of each kind: `sizeof(float)`,
`sizeof(double)`, `sizeof(gpuComplex)`, `sizeof(gpuDoubleComplex)`. -/
def elemBytes : SolverType → Int
  | .F32 => 4
  | .F64 => 8
  | .C64 => 8
  | .C128 => 16

/-- Width in bytes of a device pointer, `sizeof(void*)` on the 64-bit
platforms the library targets. -/
def ptrBytes : Int := 8

/-- Two's-complement narrowing of an integer to a signed 32-bit value
(the effect of converting a wider value to C++ `int`). -/
def wrapS32 (x : Int) : Int :=
  let r := x % 4294967296
  if r < 2147483648 then r else r - 4294967296

/-- Two's-complement reduction of an integer to a signed 64-bit value
(the effect of `size_t` arithmetic assigned to `std::int64_t`). -/
def wrapS64 (x : Int) : Int :=
  let r := x % 18446744073709551616
  if r < 9223372036854775808 then r else r - 18446744073709551616

/-- Representability in a signed 32-bit `int`. -/
def isI32 (x : Int) : Prop := -2147483648 ≤ x ∧ x < 2147483648

instance (x : Int) : Decidable (isI32 x) := by unfold isI32; infer_instance

/-- Representability in a C++ `signed char`. -/
def isI8 (x : Int) : Prop := -128 ≤ x ∧ x < 128

instance (x : Int) : Decidable (isI8 x) := by unfold isI8; infer_instance

/-- The dtype table of `DtypeToSolverType`: pairs of (kind character,
itemsize) mapped to the matching `SolverType`. -/
def supportedDtypes : List ((Char × Nat) × SolverType) :=
  [(('f', 4), .F32), (('f', 8), .F64), (('c', 8), .C64), (('c', 16), .C128)]

/-- `DtypeToSolverType`: converts a NumPy dtype, given by its kind character
and itemsize, to a `SolverType`; any pair outside the four-entry table is
rejected with an unsupported-dtype error carrying the rejected dtype. -/
def DtypeToSolverType (kind : Char) (itemsize : Nat) :
    Except SolverError SolverType :=
  match supportedDtypes.lookup (kind, itemsize) with
  | some t => .ok t
  | none => .error (.unsupportedDtype kind itemsize)

/-! ### Byte-level serialisation

`PackDescriptor` lives in `jaxlib/kernel_pybind11_helpers.h` and the
descriptor struct definitions in `jaxlib/gpu/solver_kernels.h`; neither is
under the sources verified here, so the packer is modelled from the spec:
a fixed-layout, invertible serialisation of each record into a byte
sequence, with `unpack` its exact inverse. Integer fields are stored as
4-byte little-endian two's complement (C++ `int`), enum fields as 4-byte
tags, `signed char` fields as one byte, and the sparse solver's `double`
tolerance by its 8-byte bit pattern. -/

/-- Little-endian byte decomposition of a natural number into `w` bytes. -/
def bytesOfNat : Nat → Nat → List Nat
  | 0, _ => []
  | w + 1, x => x % 256 :: bytesOfNat w (x / 256)

/-- Little-endian byte recomposition. -/
def natOfBytes : List Nat → Nat
  | [] => 0
  | byte :: rest => byte + 256 * natOfBytes rest

theorem bytesOfNat_length (w x : Nat) : (bytesOfNat w x).length = w := by
  induction w generalizing x with
  | zero => rfl
  | succ w ih => simp [bytesOfNat, ih]

theorem natOfBytes_bytesOfNat (w x : Nat) (h : x < 256 ^ w) :
    natOfBytes (bytesOfNat w x) = x := by
  induction w generalizing x with
  | zero => simp [bytesOfNat, natOfBytes]; omega
  | succ w ih =>
    have hlt : x / 256 < 256 ^ w := by
      rw [Nat.div_lt_iff_lt_mul (by norm_num)]
      calc x < 256 ^ (w + 1) := h
        _ = 256 ^ w * 256 := by ring
    simp [bytesOfNat, natOfBytes, ih _ hlt]
    omega

/-- Reads a `w`-byte field off the front of a byte list, returning its value
and the remaining bytes. -/
def readField (w : Nat) (l : List Nat) : Option (Nat × List Nat) :=
  if w ≤ l.length then some (natOfBytes (l.take w), l.drop w) else none

theorem readField_bytesOfNat (w x : Nat) (r : List Nat) (h : x < 256 ^ w) :
    readField w (bytesOfNat w x ++ r) = some (x, r) := by
  have hl : (bytesOfNat w x).length = w := bytesOfNat_length w x
  have hv : natOfBytes (bytesOfNat w x) = x := natOfBytes_bytesOfNat w x h
  unfold readField
  generalize hg : bytesOfNat w x = l at hl hv
  subst hl
  rw [if_pos (by simp)]
  rw [List.take_left, List.drop_left, hv]

/-- Encodes a C++ `int` field as 4 little-endian two's-complement bytes. -/
def encI32 (x : Int) : List Nat := bytesOfNat 4 (x % 4294967296).toNat

/-- Decodes a 4-byte two's-complement field value back to the `int`. -/
def decI32 (u : Nat) : Int :=
  if u < 2147483648 then (u : Int) else (u : Int) - 4294967296

/-- Encodes an enum field as a 4-byte tag. -/
def encU32 (x : Nat) : List Nat := bytesOfNat 4 x

/-- Encodes a C++ `signed char` field as one byte. -/
def encI8 (x : Int) : List Nat := bytesOfNat 1 (x % 256).toNat

/-- Decodes a one-byte `signed char` field value. -/
def decI8 (u : Nat) : Int :=
  if u < 128 then (u : Int) else (u : Int) - 256

/-- Encodes the 8-byte bit pattern of a `double` field. -/
def encU64 (x : Nat) : List Nat := bytesOfNat 8 x

theorem readField_encI32 (x : Int) (r : List Nat) (h : isI32 x) :
    readField 4 (encI32 x ++ r) = some ((x % 4294967296).toNat, r) := by
  exact readField_bytesOfNat 4 _ r (by unfold isI32 at h; omega)

theorem decI32_emod (x : Int) (h : isI32 x) :
    decI32 ((x % 4294967296).toNat) = x := by
  unfold isI32 at h
  unfold decI32
  split <;> omega

theorem readField_encU32 (x : Nat) (r : List Nat) (h : x < 4294967296) :
    readField 4 (encU32 x ++ r) = some (x, r) :=
  readField_bytesOfNat 4 x r (by omega)

theorem readField_encI8 (x : Int) (r : List Nat) (h : isI8 x) :
    readField 1 (encI8 x ++ r) = some ((x % 256).toNat, r) := by
  exact readField_bytesOfNat 1 _ r (by unfold isI8 at h; omega)

theorem decI8_emod (x : Int) (h : isI8 x) :
    decI8 ((x % 256).toNat) = x := by
  unfold isI8 at h
  unfold decI8
  split <;> omega

theorem readField_encU64 (x : Nat) (r : List Nat)
    (h : x < 18446744073709551616) :
    readField 8 (encU64 x ++ r) = some (x, r) :=
  readField_bytesOfNat 8 x r (by omega)

/-! ### Descriptor records

One record per operation family, with fields in the order of the C++
aggregate initialisers in `solver.cc`.  The struct definitions themselves
live in `jaxlib/gpu/solver_kernels.h` (not under the verified sources), so
the field lists are taken from the braced initialisers at each
`PackDescriptor` call site. -/

/-- Serialisation tag of a `SolverType` field. -/
def SolverType.toTag : SolverType → Nat
  | .F32 => 0
  | .F64 => 1
  | .C64 => 2
  | .C128 => 3

/-- Inverse of `SolverType.toTag`. -/
def solverTypeOfTag : Nat → Option SolverType
  | 0 => some .F32
  | 1 => some .F64
  | 2 => some .C64
  | 3 => some .C128
  | _ => none

/-- Serialisation tag of a `FillMode` field. -/
def FillMode.toTag : FillMode → Nat
  | .lower => 0
  | .upper => 1

/-- Inverse of `FillMode.toTag`. -/
def fillModeOfTag : Nat → Option FillMode
  | 0 => some .lower
  | 1 => some .upper
  | _ => none

/-- Serialisation tag of an `EigMode` field. -/
def EigMode.toTag : EigMode → Nat
  | .vector => 1
  | .novector => 0

/-- Inverse of `EigMode.toTag`. -/
def eigModeOfTag : Nat → Option EigMode
  | 1 => some .vector
  | 0 => some .novector
  | _ => none

/-- Descriptor for a potrf (Cholesky) operation. -/
structure PotrfDescriptor where
  type : SolverType
  uplo : FillMode
  b : Int
  n : Int
  lwork : Int
deriving DecidableEq

/-- Well-formedness: every `int` field holds a 32-bit value. -/
def PotrfDescriptor.wf (d : PotrfDescriptor) : Prop :=
  isI32 d.b ∧ isI32 d.n ∧ isI32 d.lwork

instance (d : PotrfDescriptor) : Decidable d.wf := by
  unfold PotrfDescriptor.wf; infer_instance

/-- Descriptor for a getrf (LU) operation. -/
structure GetrfDescriptor where
  type : SolverType
  b : Int
  m : Int
  n : Int
  lwork : Int
deriving DecidableEq

/-- Well-formedness: every `int` field holds a 32-bit value. -/
def GetrfDescriptor.wf (d : GetrfDescriptor) : Prop :=
  isI32 d.b ∧ isI32 d.m ∧ isI32 d.n ∧ isI32 d.lwork

instance (d : GetrfDescriptor) : Decidable d.wf := by
  unfold GetrfDescriptor.wf; infer_instance

/-- Descriptor for a geqrf (QR) operation. -/
structure GeqrfDescriptor where
  type : SolverType
  b : Int
  m : Int
  n : Int
  lwork : Int
deriving DecidableEq

/-- Well-formedness: every `int` field holds a 32-bit value. -/
def GeqrfDescriptor.wf (d : GeqrfDescriptor) : Prop :=
  isI32 d.b ∧ isI32 d.m ∧ isI32 d.n ∧ isI32 d.lwork

instance (d : GeqrfDescriptor) : Decidable d.wf := by
  unfold GeqrfDescriptor.wf; infer_instance

/-- Descriptor for a csrlsvqr (sparse QR solve) operation; `tol` is the
bit pattern of the C++ `double` tolerance. -/
structure CsrlsvqrDescriptor where
  type : SolverType
  n : Int
  nnzA : Int
  reorder : Int
  tol : Nat
deriving DecidableEq

/-- Well-formedness: `int` fields are 32-bit, `tol` is a 64-bit pattern. -/
def CsrlsvqrDescriptor.wf (d : CsrlsvqrDescriptor) : Prop :=
  isI32 d.n ∧ isI32 d.nnzA ∧ isI32 d.reorder ∧ d.tol < 18446744073709551616

instance (d : CsrlsvqrDescriptor) : Decidable d.wf := by
  unfold CsrlsvqrDescriptor.wf; infer_instance

/-- Descriptor for an orgqr/ungqr operation. -/
structure OrgqrDescriptor where
  type : SolverType
  b : Int
  m : Int
  n : Int
  k : Int
  lwork : Int
deriving DecidableEq

/-- Well-formedness: every `int` field holds a 32-bit value. -/
def OrgqrDescriptor.wf (d : OrgqrDescriptor) : Prop :=
  isI32 d.b ∧ isI32 d.m ∧ isI32 d.n ∧ isI32 d.k ∧ isI32 d.lwork

instance (d : OrgqrDescriptor) : Decidable d.wf := by
  unfold OrgqrDescriptor.wf; infer_instance

/-- Descriptor for a syevd/heevd operation. -/
structure SyevdDescriptor where
  type : SolverType
  uplo : FillMode
  b : Int
  n : Int
  lwork : Int
deriving DecidableEq

/-- Well-formedness: every `int` field holds a 32-bit value. -/
def SyevdDescriptor.wf (d : SyevdDescriptor) : Prop :=
  isI32 d.b ∧ isI32 d.n ∧ isI32 d.lwork

instance (d : SyevdDescriptor) : Decidable d.wf := by
  unfold SyevdDescriptor.wf; infer_instance

/-- Descriptor for a syevj/heevj operation. -/
structure SyevjDescriptor where
  type : SolverType
  uplo : FillMode
  batch : Int
  n : Int
  lwork : Int
deriving DecidableEq

/-- Well-formedness: every `int` field holds a 32-bit value. -/
def SyevjDescriptor.wf (d : SyevjDescriptor) : Prop :=
  isI32 d.batch ∧ isI32 d.n ∧ isI32 d.lwork

instance (d : SyevjDescriptor) : Decidable d.wf := by
  unfold SyevjDescriptor.wf; infer_instance

/-- Descriptor for a gesvd operation; `jobu`/`jobvt` are the `signed char`
job flags. -/
structure GesvdDescriptor where
  type : SolverType
  b : Int
  m : Int
  n : Int
  lwork : Int
  jobu : Int
  jobvt : Int
deriving DecidableEq

/-- Well-formedness: `int` fields are 32-bit, job flags fit `signed char`. -/
def GesvdDescriptor.wf (d : GesvdDescriptor) : Prop :=
  isI32 d.b ∧ isI32 d.m ∧ isI32 d.n ∧ isI32 d.lwork ∧
    isI8 d.jobu ∧ isI8 d.jobvt

instance (d : GesvdDescriptor) : Decidable d.wf := by
  unfold GesvdDescriptor.wf; infer_instance

/-- Descriptor for a gesvdj operation. -/
structure GesvdjDescriptor where
  type : SolverType
  batch : Int
  m : Int
  n : Int
  lwork : Int
  jobz : EigMode
  econ : Int
deriving DecidableEq

/-- Well-formedness: every `int` field holds a 32-bit value. -/
def GesvdjDescriptor.wf (d : GesvdjDescriptor) : Prop :=
  isI32 d.batch ∧ isI32 d.m ∧ isI32 d.n ∧ isI32 d.lwork ∧ isI32 d.econ

instance (d : GesvdjDescriptor) : Decidable d.wf := by
  unfold GesvdjDescriptor.wf; infer_instance

/-- Descriptor for a sytrd/hetrd operation; the call site records the
matrix order in both `n` and `lda`. -/
structure SytrdDescriptor where
  type : SolverType
  uplo : FillMode
  b : Int
  n : Int
  lda : Int
  lwork : Int
deriving DecidableEq

/-- Well-formedness: every `int` field holds a 32-bit value. -/
def SytrdDescriptor.wf (d : SytrdDescriptor) : Prop :=
  isI32 d.b ∧ isI32 d.n ∧ isI32 d.lda ∧ isI32 d.lwork

instance (d : SytrdDescriptor) : Decidable d.wf := by
  unfold SytrdDescriptor.wf; infer_instance

theorem readField_encI32_nil (x : Int) (h : isI32 x) :
    readField 4 (encI32 x) = some ((x % 4294967296).toNat, []) := by
  have := readField_encI32 x [] h
  simpa using this

theorem readField_encU64_nil (x : Nat) (h : x < 18446744073709551616) :
    readField 8 (encU64 x) = some (x, []) := by
  have := readField_encU64 x [] h
  simpa using this

theorem solverTypeTag_lt (t : SolverType) : t.toTag < 4294967296 := by
  cases t <;> decide

theorem solverTypeOfTag_toTag (t : SolverType) :
    solverTypeOfTag t.toTag = some t := by
  cases t <;> rfl

theorem fillModeTag_lt (u : FillMode) : u.toTag < 4294967296 := by
  cases u <;> decide

theorem fillModeOfTag_toTag (u : FillMode) :
    fillModeOfTag u.toTag = some u := by
  cases u <;> rfl

theorem eigModeTag_lt (j : EigMode) : j.toTag < 4294967296 := by
  cases j <;> decide

theorem eigModeOfTag_toTag (j : EigMode) :
    eigModeOfTag j.toTag = some j := by
  cases j <;> rfl

/-- Packs a `PotrfDescriptor` into its fixed-layout byte sequence; total,
with no failure path. -/
def packPotrf (d : PotrfDescriptor) : List Nat :=
  encU32 d.type.toTag ++ (encU32 d.uplo.toTag ++
    (encI32 d.b ++ (encI32 d.n ++ encI32 d.lwork)))

/-- Unpacks a `PotrfDescriptor`, the exact inverse of `packPotrf`. -/
def unpackPotrf (l : List Nat) : Option PotrfDescriptor := do
  let (t, l) ← readField 4 l
  let type ← solverTypeOfTag t
  let (u, l) ← readField 4 l
  let uplo ← fillModeOfTag u
  let (b, l) ← readField 4 l
  let (n, l) ← readField 4 l
  let (w, _) ← readField 4 l
  pure { type := type, uplo := uplo, b := decI32 b, n := decI32 n,
         lwork := decI32 w }

theorem unpackPotrf_packPotrf (d : PotrfDescriptor) (h : d.wf) :
    unpackPotrf (packPotrf d) = some d := by
  obtain ⟨hb, hn, hw⟩ := h
  rcases d with ⟨t, u, b, n, lw⟩
  simp only [packPotrf, unpackPotrf, bind, Option.bind,
    readField_encU32 _ _ (solverTypeTag_lt t),
    readField_encU32 _ _ (fillModeTag_lt u),
    readField_encI32 _ _ hb, readField_encI32 _ _ hn,
    readField_encI32_nil _ hw,
    solverTypeOfTag_toTag, fillModeOfTag_toTag,
    decI32_emod _ hb, decI32_emod _ hn, decI32_emod _ hw]
  rfl

/-- Packs a `GetrfDescriptor`; total, with no failure path. -/
def packGetrf (d : GetrfDescriptor) : List Nat :=
  encU32 d.type.toTag ++ (encI32 d.b ++
    (encI32 d.m ++ (encI32 d.n ++ encI32 d.lwork)))

/-- Unpacks a `GetrfDescriptor`, the exact inverse of `packGetrf`. -/
def unpackGetrf (l : List Nat) : Option GetrfDescriptor := do
  let (t, l) ← readField 4 l
  let type ← solverTypeOfTag t
  let (b, l) ← readField 4 l
  let (m, l) ← readField 4 l
  let (n, l) ← readField 4 l
  let (w, _) ← readField 4 l
  pure { type := type, b := decI32 b, m := decI32 m, n := decI32 n,
         lwork := decI32 w }

theorem unpackGetrf_packGetrf (d : GetrfDescriptor) (h : d.wf) :
    unpackGetrf (packGetrf d) = some d := by
  obtain ⟨hb, hm, hn, hw⟩ := h
  rcases d with ⟨t, b, m, n, lw⟩
  simp only [packGetrf, unpackGetrf, bind, Option.bind,
    readField_encU32 _ _ (solverTypeTag_lt t),
    readField_encI32 _ _ hb, readField_encI32 _ _ hm,
    readField_encI32 _ _ hn, readField_encI32_nil _ hw,
    solverTypeOfTag_toTag,
    decI32_emod _ hb, decI32_emod _ hm, decI32_emod _ hn, decI32_emod _ hw]
  rfl

/-- Packs a `GeqrfDescriptor`; total, with no failure path. -/
def packGeqrf (d : GeqrfDescriptor) : List Nat :=
  encU32 d.type.toTag ++ (encI32 d.b ++
    (encI32 d.m ++ (encI32 d.n ++ encI32 d.lwork)))

/-- Unpacks a `GeqrfDescriptor`, the exact inverse of `packGeqrf`. -/
def unpackGeqrf (l : List Nat) : Option GeqrfDescriptor := do
  let (t, l) ← readField 4 l
  let type ← solverTypeOfTag t
  let (b, l) ← readField 4 l
  let (m, l) ← readField 4 l
  let (n, l) ← readField 4 l
  let (w, _) ← readField 4 l
  pure { type := type, b := decI32 b, m := decI32 m, n := decI32 n,
         lwork := decI32 w }

theorem unpackGeqrf_packGeqrf (d : GeqrfDescriptor) (h : d.wf) :
    unpackGeqrf (packGeqrf d) = some d := by
  obtain ⟨hb, hm, hn, hw⟩ := h
  rcases d with ⟨t, b, m, n, lw⟩
  simp only [packGeqrf, unpackGeqrf, bind, Option.bind,
    readField_encU32 _ _ (solverTypeTag_lt t),
    readField_encI32 _ _ hb, readField_encI32 _ _ hm,
    readField_encI32 _ _ hn, readField_encI32_nil _ hw,
    solverTypeOfTag_toTag,
    decI32_emod _ hb, decI32_emod _ hm, decI32_emod _ hn, decI32_emod _ hw]
  rfl

/-- Packs a `CsrlsvqrDescriptor`; total, with no failure path. -/
def packCsrlsvqr (d : CsrlsvqrDescriptor) : List Nat :=
  encU32 d.type.toTag ++ (encI32 d.n ++
    (encI32 d.nnzA ++ (encI32 d.reorder ++ encU64 d.tol)))

/-- Unpacks a `CsrlsvqrDescriptor`, the exact inverse of `packCsrlsvqr`. -/
def unpackCsrlsvqr (l : List Nat) : Option CsrlsvqrDescriptor := do
  let (t, l) ← readField 4 l
  let type ← solverTypeOfTag t
  let (n, l) ← readField 4 l
  let (z, l) ← readField 4 l
  let (r, l) ← readField 4 l
  let (tol, _) ← readField 8 l
  pure { type := type, n := decI32 n, nnzA := decI32 z,
         reorder := decI32 r, tol := tol }

theorem unpackCsrlsvqr_packCsrlsvqr (d : CsrlsvqrDescriptor) (h : d.wf) :
    unpackCsrlsvqr (packCsrlsvqr d) = some d := by
  obtain ⟨hn, hz, hr, ht⟩ := h
  rcases d with ⟨t, n, z, r, tol⟩
  simp only [packCsrlsvqr, unpackCsrlsvqr, bind, Option.bind,
    readField_encU32 _ _ (solverTypeTag_lt t),
    readField_encI32 _ _ hn, readField_encI32 _ _ hz,
    readField_encI32 _ _ hr, readField_encU64_nil _ ht,
    solverTypeOfTag_toTag,
    decI32_emod _ hn, decI32_emod _ hz, decI32_emod _ hr]
  rfl

/-- Packs an `OrgqrDescriptor`; total, with no failure path. -/
def packOrgqr (d : OrgqrDescriptor) : List Nat :=
  encU32 d.type.toTag ++ (encI32 d.b ++ (encI32 d.m ++
    (encI32 d.n ++ (encI32 d.k ++ encI32 d.lwork))))

/-- Unpacks an `OrgqrDescriptor`, the exact inverse of `packOrgqr`. -/
def unpackOrgqr (l : List Nat) : Option OrgqrDescriptor := do
  let (t, l) ← readField 4 l
  let type ← solverTypeOfTag t
  let (b, l) ← readField 4 l
  let (m, l) ← readField 4 l
  let (n, l) ← readField 4 l
  let (k, l) ← readField 4 l
  let (w, _) ← readField 4 l
  pure { type := type, b := decI32 b, m := decI32 m, n := decI32 n,
         k := decI32 k, lwork := decI32 w }

theorem unpackOrgqr_packOrgqr (d : OrgqrDescriptor) (h : d.wf) :
    unpackOrgqr (packOrgqr d) = some d := by
  obtain ⟨hb, hm, hn, hk, hw⟩ := h
  rcases d with ⟨t, b, m, n, k, lw⟩
  simp only [packOrgqr, unpackOrgqr, bind, Option.bind,
    readField_encU32 _ _ (solverTypeTag_lt t),
    readField_encI32 _ _ hb, readField_encI32 _ _ hm,
    readField_encI32 _ _ hn, readField_encI32 _ _ hk,
    readField_encI32_nil _ hw,
    solverTypeOfTag_toTag,
    decI32_emod _ hb, decI32_emod _ hm, decI32_emod _ hn,
    decI32_emod _ hk, decI32_emod _ hw]
  rfl

/-- Packs a `SyevdDescriptor`; total, with no failure path. -/
def packSyevd (d : SyevdDescriptor) : List Nat :=
  encU32 d.type.toTag ++ (encU32 d.uplo.toTag ++
    (encI32 d.b ++ (encI32 d.n ++ encI32 d.lwork)))

/-- Unpacks a `SyevdDescriptor`, the exact inverse of `packSyevd`. -/
def unpackSyevd (l : List Nat) : Option SyevdDescriptor := do
  let (t, l) ← readField 4 l
  let type ← solverTypeOfTag t
  let (u, l) ← readField 4 l
  let uplo ← fillModeOfTag u
  let (b, l) ← readField 4 l
  let (n, l) ← readField 4 l
  let (w, _) ← readField 4 l
  pure { type := type, uplo := uplo, b := decI32 b, n := decI32 n,
         lwork := decI32 w }

theorem unpackSyevd_packSyevd (d : SyevdDescriptor) (h : d.wf) :
    unpackSyevd (packSyevd d) = some d := by
  obtain ⟨hb, hn, hw⟩ := h
  rcases d with ⟨t, u, b, n, lw⟩
  simp only [packSyevd, unpackSyevd, bind, Option.bind,
    readField_encU32 _ _ (solverTypeTag_lt t),
    readField_encU32 _ _ (fillModeTag_lt u),
    readField_encI32 _ _ hb, readField_encI32 _ _ hn,
    readField_encI32_nil _ hw,
    solverTypeOfTag_toTag, fillModeOfTag_toTag,
    decI32_emod _ hb, decI32_emod _ hn, decI32_emod _ hw]
  rfl

/-- Packs a `SyevjDescriptor`; total, with no failure path. -/
def packSyevj (d : SyevjDescriptor) : List Nat :=
  encU32 d.type.toTag ++ (encU32 d.uplo.toTag ++
    (encI32 d.batch ++ (encI32 d.n ++ encI32 d.lwork)))

/-- Unpacks a `SyevjDescriptor`, the exact inverse of `packSyevj`. -/
def unpackSyevj (l : List Nat) : Option SyevjDescriptor := do
  let (t, l) ← readField 4 l
  let type ← solverTypeOfTag t
  let (u, l) ← readField 4 l
  let uplo ← fillModeOfTag u
  let (b, l) ← readField 4 l
  let (n, l) ← readField 4 l
  let (w, _) ← readField 4 l
  pure { type := type, uplo := uplo, batch := decI32 b, n := decI32 n,
         lwork := decI32 w }

theorem unpackSyevj_packSyevj (d : SyevjDescriptor) (h : d.wf) :
    unpackSyevj (packSyevj d) = some d := by
  obtain ⟨hb, hn, hw⟩ := h
  rcases d with ⟨t, u, b, n, lw⟩
  simp only [packSyevj, unpackSyevj, bind, Option.bind,
    readField_encU32 _ _ (solverTypeTag_lt t),
    readField_encU32 _ _ (fillModeTag_lt u),
    readField_encI32 _ _ hb, readField_encI32 _ _ hn,
    readField_encI32_nil _ hw,
    solverTypeOfTag_toTag, fillModeOfTag_toTag,
    decI32_emod _ hb, decI32_emod _ hn, decI32_emod _ hw]
  rfl

/-- Packs a `GesvdDescriptor`; total, with no failure path. -/
def packGesvd (d : GesvdDescriptor) : List Nat :=
  encU32 d.type.toTag ++ (encI32 d.b ++ (encI32 d.m ++ (encI32 d.n ++
    (encI32 d.lwork ++ (encI8 d.jobu ++ encI8 d.jobvt)))))

/-- Unpacks a `GesvdDescriptor`, the exact inverse of `packGesvd`. -/
def unpackGesvd (l : List Nat) : Option GesvdDescriptor := do
  let (t, l) ← readField 4 l
  let type ← solverTypeOfTag t
  let (b, l) ← readField 4 l
  let (m, l) ← readField 4 l
  let (n, l) ← readField 4 l
  let (w, l) ← readField 4 l
  let (ju, l) ← readField 1 l
  let (jv, _) ← readField 1 l
  pure { type := type, b := decI32 b, m := decI32 m, n := decI32 n,
         lwork := decI32 w, jobu := decI8 ju, jobvt := decI8 jv }

theorem readField_encI8_nil (x : Int) (h : isI8 x) :
    readField 1 (encI8 x) = some ((x % 256).toNat, []) := by
  have := readField_encI8 x [] h
  simpa using this

theorem unpackGesvd_packGesvd (d : GesvdDescriptor) (h : d.wf) :
    unpackGesvd (packGesvd d) = some d := by
  obtain ⟨hb, hm, hn, hw, hju, hjv⟩ := h
  rcases d with ⟨t, b, m, n, lw, ju, jv⟩
  simp only [packGesvd, unpackGesvd, bind, Option.bind,
    readField_encU32 _ _ (solverTypeTag_lt t),
    readField_encI32 _ _ hb, readField_encI32 _ _ hm,
    readField_encI32 _ _ hn, readField_encI32 _ _ hw,
    readField_encI8 _ _ hju, readField_encI8_nil _ hjv,
    solverTypeOfTag_toTag,
    decI32_emod _ hb, decI32_emod _ hm, decI32_emod _ hn,
    decI32_emod _ hw, decI8_emod _ hju, decI8_emod _ hjv]
  rfl

/-- Packs a `GesvdjDescriptor`; total, with no failure path. -/
def packGesvdj (d : GesvdjDescriptor) : List Nat :=
  encU32 d.type.toTag ++ (encI32 d.batch ++ (encI32 d.m ++ (encI32 d.n ++
    (encI32 d.lwork ++ (encU32 d.jobz.toTag ++ encI32 d.econ)))))

/-- Unpacks a `GesvdjDescriptor`, the exact inverse of `packGesvdj`. -/
def unpackGesvdj (l : List Nat) : Option GesvdjDescriptor := do
  let (t, l) ← readField 4 l
  let type ← solverTypeOfTag t
  let (b, l) ← readField 4 l
  let (m, l) ← readField 4 l
  let (n, l) ← readField 4 l
  let (w, l) ← readField 4 l
  let (j, l) ← readField 4 l
  let jobz ← eigModeOfTag j
  let (e, _) ← readField 4 l
  pure { type := type, batch := decI32 b, m := decI32 m, n := decI32 n,
         lwork := decI32 w, jobz := jobz, econ := decI32 e }

theorem unpackGesvdj_packGesvdj (d : GesvdjDescriptor) (h : d.wf) :
    unpackGesvdj (packGesvdj d) = some d := by
  obtain ⟨hb, hm, hn, hw, he⟩ := h
  rcases d with ⟨t, b, m, n, lw, j, e⟩
  simp only [packGesvdj, unpackGesvdj, bind, Option.bind,
    readField_encU32 _ _ (solverTypeTag_lt t),
    readField_encU32 _ _ (eigModeTag_lt j),
    readField_encI32 _ _ hb, readField_encI32 _ _ hm,
    readField_encI32 _ _ hn, readField_encI32 _ _ hw,
    readField_encI32_nil _ he,
    solverTypeOfTag_toTag, eigModeOfTag_toTag,
    decI32_emod _ hb, decI32_emod _ hm, decI32_emod _ hn,
    decI32_emod _ hw, decI32_emod _ he]
  rfl

/-- Packs a `SytrdDescriptor`; total, with no failure path. -/
def packSytrd (d : SytrdDescriptor) : List Nat :=
  encU32 d.type.toTag ++ (encU32 d.uplo.toTag ++ (encI32 d.b ++
    (encI32 d.n ++ (encI32 d.lda ++ encI32 d.lwork))))

/-- Unpacks a `SytrdDescriptor`, the exact inverse of `packSytrd`. -/
def unpackSytrd (l : List Nat) : Option SytrdDescriptor := do
  let (t, l) ← readField 4 l
  let type ← solverTypeOfTag t
  let (u, l) ← readField 4 l
  let uplo ← fillModeOfTag u
  let (b, l) ← readField 4 l
  let (n, l) ← readField 4 l
  let (a, l) ← readField 4 l
  let (w, _) ← readField 4 l
  pure { type := type, uplo := uplo, b := decI32 b, n := decI32 n,
         lda := decI32 a, lwork := decI32 w }

theorem unpackSytrd_packSytrd (d : SytrdDescriptor) (h : d.wf) :
    unpackSytrd (packSytrd d) = some d := by
  obtain ⟨hb, hn, ha, hw⟩ := h
  rcases d with ⟨t, u, b, n, a, lw⟩
  simp only [packSytrd, unpackSytrd, bind, Option.bind,
    readField_encU32 _ _ (solverTypeTag_lt t),
    readField_encU32 _ _ (fillModeTag_lt u),
    readField_encI32 _ _ hb, readField_encI32 _ _ hn,
    readField_encI32 _ _ ha, readField_encI32_nil _ hw,
    solverTypeOfTag_toTag, fillModeOfTag_toTag,
    decI32_emod _ hb, decI32_emod _ hn, decI32_emod _ ha, decI32_emod _ hw]
  rfl

/-! ### The vendor solver API and the handle pool

`SolverApi` abstracts the accelerator library entry points consulted by the
builders.  Each `…BufferSize` field stands for the four per-type
`gpusolverDn{S,D,C,Z}…_bufferSize` entry points, indexed here by the
`SolverType` the C++ switch dispatches on; the remaining arguments follow
the C++ calls (the null device pointers are omitted).  A query either
fails with a non-success status (which `JAX_THROW_IF_ERROR(JAX_AS_STATUS(…))`
turns into an exception) or yields the `int` written into `lwork`.
`borrowHandle` models `SolverHandlePool::Borrow` followed by the
`JAX_THROW_IF_ERROR(h.status())` check, and the two `create…Info` fields
model `gpusolverDnCreateSyevjInfo` / `cusolverDnCreateGesvdjInfo`. -/
structure SolverApi where
  borrowHandle : Except SolverError Unit
  createSyevjInfo : Except SolverError Unit
  createGesvdjInfo : Except SolverError Unit
  potrfBufferSize : SolverType → FillMode → Int → Int → Except SolverError Int
  potrfBatchedBufferSize :
    SolverType → FillMode → Int → Int → Int → Except SolverError Int
  getrfBufferSize : SolverType → Int → Int → Int → Except SolverError Int
  geqrfBufferSize : SolverType → Int → Int → Int → Except SolverError Int
  orgqrBufferSize :
    SolverType → Int → Int → Int → Int → Except SolverError Int
  syevdBufferSize :
    SolverType → EigMode → FillMode → Int → Int → Except SolverError Int
  syevjBufferSize :
    SolverType → EigMode → FillMode → Int → Int → Except SolverError Int
  syevjBatchedBufferSize :
    SolverType → EigMode → FillMode → Int → Int → Int → Except SolverError Int
  gesvdBufferSize :
    SolverType → Int → Int → Int → Int → Except SolverError Int
  gesvdjBufferSize :
    SolverType → EigMode → Int → Int → Int → Int → Int → Int →
      Except SolverError Int
  gesvdjBatchedBufferSize :
    SolverType → EigMode → Int → Int → Int → Int → Int → Int →
      Except SolverError Int
  sytrdBufferSize :
    SolverType → FillMode → Int → Int → Except SolverError Int

/-- Result of a builder: the `(workspace_size, packed_descriptor)` pair (or
the raised error), together with the trace of resource events produced by
the call, in order.  The release events mirror the C++ RAII destructors
(the pool borrow object and the `unique_ptr` parameter cleanups), which run
on every exit path, normal or exceptional. -/
abbrev BuildResult := Except SolverError (Int × List Nat) × List Event

/-! ### Descriptor builders -/

/-- `BuildPotrfDescriptor`: workspace size and packed descriptor for a
potrf (Cholesky) operation.  `lwork0` models the indeterminate initial
contents of the local `int lwork;`, which the C++ declares uninitialised
and, on the CUDA path with `b ≠ 1`, never assigns before packing. -/
def BuildPotrfDescriptor (api : SolverApi) (backend : Backend) (lwork0 : Int)
    (kind : Char) (itemsize : Nat) (lower : Bool) (b n : Int) : BuildResult :=
  match DtypeToSolverType kind itemsize with
  | .error e => (.error e, [])
  | .ok type =>
    match api.borrowHandle with
    | .error e => (.error e, [])
    | .ok _ =>
      let uplo := if lower then FillMode.lower else FillMode.upper
      if b = 1 then
        match api.potrfBufferSize type uplo n n with
        | .error e => (.error e, [.borrowHandle, .releaseHandle])
        | .ok lwork =>
          let workspace_size := wrapS64 (lwork * elemBytes type)
          (.ok (wrapS32 workspace_size,
                packPotrf { type := type, uplo := uplo, b := b, n := n,
                            lwork := lwork }),
           [.borrowHandle, .releaseHandle])
      else
        match backend with
        | .cuda =>
          let workspace_size := wrapS64 (ptrBytes * b)
          (.ok (wrapS32 workspace_size,
                packPotrf { type := type, uplo := uplo, b := b, n := n,
                            lwork := lwork0 }),
           [.borrowHandle, .releaseHandle])
        | .rocm =>
          match api.potrfBatchedBufferSize type uplo n n b with
          | .error e => (.error e, [.borrowHandle, .releaseHandle])
          | .ok lwork =>
            let workspace_size :=
              wrapS64 (lwork * elemBytes type + b * ptrBytes)
            (.ok (wrapS32 workspace_size,
                  packPotrf { type := type, uplo := uplo, b := b, n := n,
                              lwork := lwork }),
             [.borrowHandle, .releaseHandle])

/-- `BuildGetrfDescriptor`: workspace size and packed descriptor for a
getrf (LU) operation; the size query receives `m`, `n` and `lda = m`, and
the returned workspace size is the queried `lwork` itself. -/
def BuildGetrfDescriptor (api : SolverApi) (kind : Char) (itemsize : Nat)
    (b m n : Int) : BuildResult :=
  match DtypeToSolverType kind itemsize with
  | .error e => (.error e, [])
  | .ok type =>
    match api.borrowHandle with
    | .error e => (.error e, [])
    | .ok _ =>
      match api.getrfBufferSize type m n m with
      | .error e => (.error e, [.borrowHandle, .releaseHandle])
      | .ok lwork =>
        (.ok (lwork,
              packGetrf { type := type, b := b, m := m, n := n,
                          lwork := lwork }),
         [.borrowHandle, .releaseHandle])

/-- `BuildGeqrfDescriptor`: workspace size and packed descriptor for a
geqrf (QR) operation; the size query receives `m`, `n` and `lda = m`, and
the returned workspace size is the queried `lwork` itself. -/
def BuildGeqrfDescriptor (api : SolverApi) (kind : Char) (itemsize : Nat)
    (b m n : Int) : BuildResult :=
  match DtypeToSolverType kind itemsize with
  | .error e => (.error e, [])
  | .ok type =>
    match api.borrowHandle with
    | .error e => (.error e, [])
    | .ok _ =>
      match api.geqrfBufferSize type m n m with
      | .error e => (.error e, [.borrowHandle, .releaseHandle])
      | .ok lwork =>
        (.ok (lwork,
              packGeqrf { type := type, b := b, m := m, n := n,
                          lwork := lwork }),
         [.borrowHandle, .releaseHandle])

/-- `BuildCsrlsvqrDescriptor` (CUDA only): packed descriptor for a
csrlsvqr operation; pure parameter capture, no handle and no size query.
`tol` is the bit pattern of the `double` tolerance argument. -/
def BuildCsrlsvqrDescriptor (kind : Char) (itemsize : Nat)
    (n nnzA reorder : Int) (tol : Nat) :
    Except SolverError (List Nat) × List Event :=
  match DtypeToSolverType kind itemsize with
  | .error e => (.error e, [])
  | .ok type =>
    (.ok (packCsrlsvqr { type := type, n := n, nnzA := nnzA,
                         reorder := reorder, tol := tol }), [])

/-- `BuildOrgqrDescriptor`: workspace size and packed descriptor for an
orgqr/ungqr operation; the size query receives `m`, `n`, `k` and
`lda = m`, and the returned workspace size is the queried `lwork`. -/
def BuildOrgqrDescriptor (api : SolverApi) (kind : Char) (itemsize : Nat)
    (b m n k : Int) : BuildResult :=
  match DtypeToSolverType kind itemsize with
  | .error e => (.error e, [])
  | .ok type =>
    match api.borrowHandle with
    | .error e => (.error e, [])
    | .ok _ =>
      match api.orgqrBufferSize type m n k m with
      | .error e => (.error e, [.borrowHandle, .releaseHandle])
      | .ok lwork =>
        (.ok (lwork,
              packOrgqr { type := type, b := b, m := m, n := n, k := k,
                          lwork := lwork }),
         [.borrowHandle, .releaseHandle])

/-- `BuildSyevdDescriptor`: workspace size and packed descriptor for a
syevd/heevd operation; `jobz` is fixed to vector mode, the size query
receives `n` and `lda = n`, and the returned workspace size is the queried
`lwork`. -/
def BuildSyevdDescriptor (api : SolverApi) (kind : Char) (itemsize : Nat)
    (lower : Bool) (b n : Int) : BuildResult :=
  match DtypeToSolverType kind itemsize with
  | .error e => (.error e, [])
  | .ok type =>
    match api.borrowHandle with
    | .error e => (.error e, [])
    | .ok _ =>
      let jobz := EigMode.vector
      let uplo := if lower then FillMode.lower else FillMode.upper
      match api.syevdBufferSize type jobz uplo n n with
      | .error e => (.error e, [.borrowHandle, .releaseHandle])
      | .ok lwork =>
        (.ok (lwork,
              packSyevd { type := type, uplo := uplo, b := b, n := n,
                          lwork := lwork }),
         [.borrowHandle, .releaseHandle])

/-- `BuildSyevjDescriptor`: workspace size and packed descriptor for a
syevj/heevj operation.  A `syevjInfo` parameter object is created after the
handle borrow and destroyed (by its `unique_ptr` cleanup) on every
subsequent exit path; with `batch = 1` the per-matrix query is used,
otherwise the batched query.  The returned workspace size is the queried
`lwork`. -/
def BuildSyevjDescriptor (api : SolverApi) (kind : Char) (itemsize : Nat)
    (lower : Bool) (batch n : Int) : BuildResult :=
  match DtypeToSolverType kind itemsize with
  | .error e => (.error e, [])
  | .ok type =>
    match api.borrowHandle with
    | .error e => (.error e, [])
    | .ok _ =>
      match api.createSyevjInfo with
      | .error e => (.error e, [.borrowHandle, .releaseHandle])
      | .ok _ =>
        let jobz := EigMode.vector
        let uplo := if lower then FillMode.lower else FillMode.upper
        if batch = 1 then
          match api.syevjBufferSize type jobz uplo n n with
          | .error e =>
            (.error e, [.borrowHandle, .createSyevjInfo,
                        .destroySyevjInfo, .releaseHandle])
          | .ok lwork =>
            (.ok (lwork,
                  packSyevj { type := type, uplo := uplo, batch := batch,
                              n := n, lwork := lwork }),
             [.borrowHandle, .createSyevjInfo,
              .destroySyevjInfo, .releaseHandle])
        else
          match api.syevjBatchedBufferSize type jobz uplo n n batch with
          | .error e =>
            (.error e, [.borrowHandle, .createSyevjInfo,
                        .destroySyevjInfo, .releaseHandle])
          | .ok lwork =>
            (.ok (lwork,
                  packSyevj { type := type, uplo := uplo, batch := batch,
                              n := n, lwork := lwork }),
             [.borrowHandle, .createSyevjInfo,
              .destroySyevjInfo, .releaseHandle])

/-- `BuildGesvdDescriptor`: workspace size and packed descriptor for a
gesvd operation.  The job flags are both `'A'` when
`compute_uv && full_matrices`, both `'S'` when `compute_uv` only, and both
`'N'` when not `compute_uv`; the size query receives the flags, `m` and
`n`, and the returned workspace size is the queried `lwork`. -/
def BuildGesvdDescriptor (api : SolverApi) (kind : Char) (itemsize : Nat)
    (b m n : Int) (compute_uv full_matrices : Bool) : BuildResult :=
  match DtypeToSolverType kind itemsize with
  | .error e => (.error e, [])
  | .ok type =>
    match api.borrowHandle with
    | .error e => (.error e, [])
    | .ok _ =>
      let jobu : Int :=
        if compute_uv then
          (if full_matrices then ('A'.toNat : Int) else ('S'.toNat : Int))
        else ('N'.toNat : Int)
      let jobvt : Int := jobu
      match api.gesvdBufferSize type jobu jobvt m n with
      | .error e => (.error e, [.borrowHandle, .releaseHandle])
      | .ok lwork =>
        (.ok (lwork,
              packGesvd { type := type, b := b, m := m, n := n,
                          lwork := lwork, jobu := jobu, jobvt := jobvt }),
         [.borrowHandle, .releaseHandle])

/-- `BuildGesvdjDescriptor` (CUDA only): workspace size and packed
descriptor for a gesvdj operation.  `jobz` is derived from `compute_uv`; a
`gesvdjInfo` parameter object is created after the handle borrow and
destroyed on every subsequent exit path.  With `batch = 1` the per-matrix
query receives `econ`, `m`, `n`, `lda = m`, `ldu = m`, `ldv = n`; the
batched query receives the same dimensions but no `econ`, plus `batch`.
The returned workspace size is the queried `lwork`. -/
def BuildGesvdjDescriptor (api : SolverApi) (kind : Char) (itemsize : Nat)
    (batch m n : Int) (compute_uv : Bool) (econ : Int) : BuildResult :=
  match DtypeToSolverType kind itemsize with
  | .error e => (.error e, [])
  | .ok type =>
    match api.borrowHandle with
    | .error e => (.error e, [])
    | .ok _ =>
      let jobz := if compute_uv then EigMode.vector else EigMode.novector
      match api.createGesvdjInfo with
      | .error e => (.error e, [.borrowHandle, .releaseHandle])
      | .ok _ =>
        if batch = 1 then
          match api.gesvdjBufferSize type jobz econ m n m m n with
          | .error e =>
            (.error e, [.borrowHandle, .createGesvdjInfo,
                        .destroyGesvdjInfo, .releaseHandle])
          | .ok lwork =>
            (.ok (lwork,
                  packGesvdj { type := type, batch := batch, m := m, n := n,
                               lwork := lwork, jobz := jobz, econ := econ }),
             [.borrowHandle, .createGesvdjInfo,
              .destroyGesvdjInfo, .releaseHandle])
        else
          match api.gesvdjBatchedBufferSize type jobz m n m m n batch with
          | .error e =>
            (.error e, [.borrowHandle, .createGesvdjInfo,
                        .destroyGesvdjInfo, .releaseHandle])
          | .ok lwork =>
            (.ok (lwork,
                  packGesvdj { type := type, batch := batch, m := m, n := n,
                               lwork := lwork, jobz := jobz, econ := econ }),
             [.borrowHandle, .createGesvdjInfo,
              .destroyGesvdjInfo, .releaseHandle])

/-- `BuildSytrdDescriptor`: workspace size and packed descriptor for a
sytrd/hetrd operation; the size query receives `n` and `lda = n`, the
returned workspace size is the queried `lwork`, and the packed descriptor
records the order `n` twice (as `n` and as `lda`). -/
def BuildSytrdDescriptor (api : SolverApi) (kind : Char) (itemsize : Nat)
    (lower : Bool) (b n : Int) : BuildResult :=
  match DtypeToSolverType kind itemsize with
  | .error e => (.error e, [])
  | .ok type =>
    match api.borrowHandle with
    | .error e => (.error e, [])
    | .ok _ =>
      let uplo := if lower then FillMode.lower else FillMode.upper
      match api.sytrdBufferSize type uplo n n with
      | .error e => (.error e, [.borrowHandle, .releaseHandle])
      | .ok lwork =>
        (.ok (lwork,
              packSytrd { type := type, uplo := uplo, b := b, n := n,
                          lda := n, lwork := lwork }),
         [.borrowHandle, .releaseHandle])

/-- A concrete API whose handle pool and parameter-object creations succeed
and whose every size query reports `lw`; used to evaluate the builders at
concrete inputs. -/
def constApi (lw : Int) : SolverApi where
  borrowHandle := .ok ()
  createSyevjInfo := .ok ()
  createGesvdjInfo := .ok ()
  potrfBufferSize := fun _ _ _ _ => .ok lw
  potrfBatchedBufferSize := fun _ _ _ _ _ => .ok lw
  getrfBufferSize := fun _ _ _ _ => .ok lw
  geqrfBufferSize := fun _ _ _ _ => .ok lw
  orgqrBufferSize := fun _ _ _ _ _ => .ok lw
  syevdBufferSize := fun _ _ _ _ _ => .ok lw
  syevjBufferSize := fun _ _ _ _ _ => .ok lw
  syevjBatchedBufferSize := fun _ _ _ _ _ _ => .ok lw
  gesvdBufferSize := fun _ _ _ _ _ => .ok lw
  gesvdjBufferSize := fun _ _ _ _ _ _ _ _ => .ok lw
  gesvdjBatchedBufferSize := fun _ _ _ _ _ _ _ _ => .ok lw
  sytrdBufferSize := fun _ _ _ _ => .ok lw

/-- A trace is balanced when every borrowed handle is released and every
created algorithm-parameter object is destroyed: the pool's
available-handle count is unchanged after the call and no parameter object
leaks. -/
def balancedTrace (tr : List Event) : Prop :=
  tr.count .borrowHandle = tr.count .releaseHandle ∧
    tr.count .createSyevjInfo = tr.count .destroySyevjInfo ∧
    tr.count .createGesvdjInfo = tr.count .destroyGesvdjInfo

instance (tr : List Event) : Decidable (balancedTrace tr) := by
  unfold balancedTrace; infer_instance

/-- The workspace-size component of a builder result. -/
def wsOf (r : BuildResult) : Except SolverError Int := r.1.map Prod.fst

/-! ### Resource-balance lemmas

One lemma per builder: whatever the API answers (success or any failure at
the resolver, the handle borrow, the parameter-object creation, or any
size query), the event trace is balanced. -/

theorem potrfTraceBalanced (api : SolverApi) (backend : Backend) (l0 : Int)
    (kind : Char) (itemsize : Nat) (lower : Bool) (b n : Int) :
    balancedTrace
      (BuildPotrfDescriptor api backend l0 kind itemsize lower b n).2 := by
  unfold BuildPotrfDescriptor
  repeat' split
  all_goals (dsimp only []; repeat' split)
  all_goals exact ⟨rfl, rfl, rfl⟩

theorem getrfTraceBalanced (api : SolverApi) (kind : Char) (itemsize : Nat)
    (b m n : Int) :
    balancedTrace (BuildGetrfDescriptor api kind itemsize b m n).2 := by
  unfold BuildGetrfDescriptor
  repeat' split
  all_goals (dsimp only []; repeat' split)
  all_goals exact ⟨rfl, rfl, rfl⟩

theorem geqrfTraceBalanced (api : SolverApi) (kind : Char) (itemsize : Nat)
    (b m n : Int) :
    balancedTrace (BuildGeqrfDescriptor api kind itemsize b m n).2 := by
  unfold BuildGeqrfDescriptor
  repeat' split
  all_goals (dsimp only []; repeat' split)
  all_goals exact ⟨rfl, rfl, rfl⟩

theorem csrlsvqrTraceBalanced (kind : Char) (itemsize : Nat)
    (n nnzA reorder : Int) (tol : Nat) :
    balancedTrace
      (BuildCsrlsvqrDescriptor kind itemsize n nnzA reorder tol).2 := by
  unfold BuildCsrlsvqrDescriptor
  repeat' split
  all_goals exact ⟨rfl, rfl, rfl⟩

theorem orgqrTraceBalanced (api : SolverApi) (kind : Char) (itemsize : Nat)
    (b m n k : Int) :
    balancedTrace (BuildOrgqrDescriptor api kind itemsize b m n k).2 := by
  unfold BuildOrgqrDescriptor
  repeat' split
  all_goals (dsimp only []; repeat' split)
  all_goals exact ⟨rfl, rfl, rfl⟩

theorem syevdTraceBalanced (api : SolverApi) (kind : Char) (itemsize : Nat)
    (lower : Bool) (b n : Int) :
    balancedTrace (BuildSyevdDescriptor api kind itemsize lower b n).2 := by
  unfold BuildSyevdDescriptor
  repeat' split
  all_goals (dsimp only []; repeat' split)
  all_goals exact ⟨rfl, rfl, rfl⟩

theorem syevjTraceBalanced (api : SolverApi) (kind : Char) (itemsize : Nat)
    (lower : Bool) (batch n : Int) :
    balancedTrace
      (BuildSyevjDescriptor api kind itemsize lower batch n).2 := by
  unfold BuildSyevjDescriptor
  repeat' split
  all_goals (dsimp only []; repeat' split)
  all_goals exact ⟨rfl, rfl, rfl⟩

theorem gesvdTraceBalanced (api : SolverApi) (kind : Char) (itemsize : Nat)
    (b m n : Int) (cuv fm : Bool) :
    balancedTrace
      (BuildGesvdDescriptor api kind itemsize b m n cuv fm).2 := by
  unfold BuildGesvdDescriptor
  repeat' split
  all_goals (dsimp only []; repeat' split)
  all_goals exact ⟨rfl, rfl, rfl⟩

theorem gesvdjTraceBalanced (api : SolverApi) (kind : Char) (itemsize : Nat)
    (batch m n : Int) (cuv : Bool) (econ : Int) :
    balancedTrace
      (BuildGesvdjDescriptor api kind itemsize batch m n cuv econ).2 := by
  unfold BuildGesvdjDescriptor
  repeat' split
  all_goals (dsimp only []; repeat' split)
  all_goals exact ⟨rfl, rfl, rfl⟩

theorem sytrdTraceBalanced (api : SolverApi) (kind : Char) (itemsize : Nat)
    (lower : Bool) (b n : Int) :
    balancedTrace (BuildSytrdDescriptor api kind itemsize lower b n).2 := by
  unfold BuildSytrdDescriptor
  repeat' split
  all_goals (dsimp only []; repeat' split)
  all_goals exact ⟨rfl, rfl, rfl⟩

/-! ### Claim theorems -/

/-- C5: every builder releases its borrowed handle, and the Jacobi
eigendecomposition and Jacobi SVD builders also their scoped
algorithm-parameter object, on every exit path — normal return and every
resolver, handle-acquisition, parameter-object or size-query failure — so
the trace of any call is balanced: the pool's available-handle count is
unchanged and no parameter object leaks. -/
theorem C5_release_on_all_paths :
    (∀ api backend l0 kind itemsize lower b n,
      balancedTrace
        (BuildPotrfDescriptor api backend l0 kind itemsize lower b n).2) ∧
    (∀ api kind itemsize b m n,
      balancedTrace (BuildGetrfDescriptor api kind itemsize b m n).2) ∧
    (∀ api kind itemsize b m n,
      balancedTrace (BuildGeqrfDescriptor api kind itemsize b m n).2) ∧
    (∀ kind itemsize n nnzA reorder tol,
      balancedTrace
        (BuildCsrlsvqrDescriptor kind itemsize n nnzA reorder tol).2) ∧
    (∀ api kind itemsize b m n k,
      balancedTrace (BuildOrgqrDescriptor api kind itemsize b m n k).2) ∧
    (∀ api kind itemsize lower b n,
      balancedTrace (BuildSyevdDescriptor api kind itemsize lower b n).2) ∧
    (∀ api kind itemsize lower batch n,
      balancedTrace (BuildSyevjDescriptor api kind itemsize lower batch n).2) ∧
    (∀ api kind itemsize b m n cuv fm,
      balancedTrace (BuildGesvdDescriptor api kind itemsize b m n cuv fm).2) ∧
    (∀ api kind itemsize batch m n cuv econ,
      balancedTrace
        (BuildGesvdjDescriptor api kind itemsize batch m n cuv econ).2) ∧
    (∀ api kind itemsize lower b n,
      balancedTrace (BuildSytrdDescriptor api kind itemsize lower b n).2) :=
  ⟨potrfTraceBalanced, getrfTraceBalanced, geqrfTraceBalanced,
   csrlsvqrTraceBalanced, orgqrTraceBalanced, syevdTraceBalanced,
   syevjTraceBalanced, gesvdTraceBalanced, gesvdjTraceBalanced,
   sytrdTraceBalanced⟩

/-- C3: the element-kind resolver returns F32 for (float, 4), F64 for
(float, 8), C64 for (complex, 8) and C128 for (complex, 16); every other
(kind, width) pair is rejected with an unsupported-element-type error
carrying the rejected dtype, and a success is always one of the four
kinds. -/
theorem C3_dtype_resolver :
    DtypeToSolverType 'f' 4 = .ok .F32 ∧
    DtypeToSolverType 'f' 8 = .ok .F64 ∧
    DtypeToSolverType 'c' 8 = .ok .C64 ∧
    DtypeToSolverType 'c' 16 = .ok .C128 ∧
    (∀ kind itemsize,
      ¬((kind = 'f' ∧ itemsize = 4) ∨ (kind = 'f' ∧ itemsize = 8) ∨
        (kind = 'c' ∧ itemsize = 8) ∨ (kind = 'c' ∧ itemsize = 16)) →
      DtypeToSolverType kind itemsize =
        .error (.unsupportedDtype kind itemsize)) ∧
    (∀ kind itemsize t, DtypeToSolverType kind itemsize = .ok t →
      t = .F32 ∨ t = .F64 ∨ t = .C64 ∨ t = .C128) := by
  refine ⟨rfl, rfl, rfl, rfl, ?_, ?_⟩
  · intro kind itemsize h
    have h1 : ((kind, itemsize) == (('f' : Char), (4 : Nat))) = false := by
      rw [beq_eq_false_iff_ne]
      intro he
      simp only [Prod.mk.injEq] at he
      exact h (Or.inl he)
    have h2 : ((kind, itemsize) == (('f' : Char), (8 : Nat))) = false := by
      rw [beq_eq_false_iff_ne]
      intro he
      simp only [Prod.mk.injEq] at he
      exact h (Or.inr (Or.inl he))
    have h3 : ((kind, itemsize) == (('c' : Char), (8 : Nat))) = false := by
      rw [beq_eq_false_iff_ne]
      intro he
      simp only [Prod.mk.injEq] at he
      exact h (Or.inr (Or.inr (Or.inl he)))
    have h4 : ((kind, itemsize) == (('c' : Char), (16 : Nat))) = false := by
      rw [beq_eq_false_iff_ne]
      intro he
      simp only [Prod.mk.injEq] at he
      exact h (Or.inr (Or.inr (Or.inr he)))
    unfold DtypeToSolverType supportedDtypes
    simp [List.lookup, h1, h2, h3, h4]
  · intro kind itemsize t _
    cases t
    · exact Or.inl rfl
    · exact Or.inr (Or.inl rfl)
    · exact Or.inr (Or.inr (Or.inl rfl))
    · exact Or.inr (Or.inr (Or.inr rfl))

/-- Witness for C3: the resolver rejects the pair (signed integer tag 'i',
width 4) with an error carrying that pair. -/
theorem C3_dtype_resolver_witness :
    DtypeToSolverType 'i' 4 = .error (.unsupportedDtype 'i' 4) :=
  C3_dtype_resolver.2.2.2.2.1 'i' 4 (by decide)

/-- C1 (amended): the Cholesky builder scales the queried lwork element
count to a byte count — `lwork × element width` on the single-matrix path,
`lwork × element width + b × pointer width` on the batched path of the
back-end with a batched query, and `b × pointer width` with no query on
the other back-end — whereas every other builder returns the raw lwork
element count reported by its size query, unscaled. -/
theorem C1_workspace_scaling_amended :
    (∀ api backend l0 kind itemsize lower n lw t,
      DtypeToSolverType kind itemsize = .ok t →
      api.borrowHandle = .ok () →
      api.potrfBufferSize t
        (if lower then FillMode.lower else FillMode.upper) n n = .ok lw →
      wsOf (BuildPotrfDescriptor api backend l0 kind itemsize lower 1 n) =
        .ok (wrapS32 (wrapS64 (lw * elemBytes t)))) ∧
    (∀ api l0 kind itemsize lower b n t,
      DtypeToSolverType kind itemsize = .ok t →
      api.borrowHandle = .ok () → b ≠ 1 →
      wsOf (BuildPotrfDescriptor api .cuda l0 kind itemsize lower b n) =
        .ok (wrapS32 (wrapS64 (ptrBytes * b)))) ∧
    (∀ api l0 kind itemsize lower b n lw t,
      DtypeToSolverType kind itemsize = .ok t →
      api.borrowHandle = .ok () → b ≠ 1 →
      api.potrfBatchedBufferSize t
        (if lower then FillMode.lower else FillMode.upper) n n b = .ok lw →
      wsOf (BuildPotrfDescriptor api .rocm l0 kind itemsize lower b n) =
        .ok (wrapS32 (wrapS64 (lw * elemBytes t + b * ptrBytes)))) ∧
    (∀ api kind itemsize b m n lw t,
      DtypeToSolverType kind itemsize = .ok t →
      api.borrowHandle = .ok () →
      api.getrfBufferSize t m n m = .ok lw →
      wsOf (BuildGetrfDescriptor api kind itemsize b m n) = .ok lw) ∧
    (∀ api kind itemsize b m n lw t,
      DtypeToSolverType kind itemsize = .ok t →
      api.borrowHandle = .ok () →
      api.geqrfBufferSize t m n m = .ok lw →
      wsOf (BuildGeqrfDescriptor api kind itemsize b m n) = .ok lw) ∧
    (∀ api kind itemsize b m n k lw t,
      DtypeToSolverType kind itemsize = .ok t →
      api.borrowHandle = .ok () →
      api.orgqrBufferSize t m n k m = .ok lw →
      wsOf (BuildOrgqrDescriptor api kind itemsize b m n k) = .ok lw) ∧
    (∀ api kind itemsize lower b n lw t,
      DtypeToSolverType kind itemsize = .ok t →
      api.borrowHandle = .ok () →
      api.syevdBufferSize t .vector
        (if lower then FillMode.lower else FillMode.upper) n n = .ok lw →
      wsOf (BuildSyevdDescriptor api kind itemsize lower b n) = .ok lw) ∧
    (∀ api kind itemsize lower n lw t,
      DtypeToSolverType kind itemsize = .ok t →
      api.borrowHandle = .ok () →
      api.createSyevjInfo = .ok () →
      api.syevjBufferSize t .vector
        (if lower then FillMode.lower else FillMode.upper) n n = .ok lw →
      wsOf (BuildSyevjDescriptor api kind itemsize lower 1 n) = .ok lw) ∧
    (∀ api kind itemsize lower batch n lw t,
      DtypeToSolverType kind itemsize = .ok t →
      api.borrowHandle = .ok () →
      api.createSyevjInfo = .ok () → batch ≠ 1 →
      api.syevjBatchedBufferSize t .vector
        (if lower then FillMode.lower else FillMode.upper) n n batch =
        .ok lw →
      wsOf (BuildSyevjDescriptor api kind itemsize lower batch n) =
        .ok lw) ∧
    (∀ api kind itemsize b m n cuv fm lw t,
      DtypeToSolverType kind itemsize = .ok t →
      api.borrowHandle = .ok () →
      api.gesvdBufferSize t
        (if cuv then (if fm then ('A'.toNat : Int) else ('S'.toNat : Int))
         else ('N'.toNat : Int))
        (if cuv then (if fm then ('A'.toNat : Int) else ('S'.toNat : Int))
         else ('N'.toNat : Int)) m n = .ok lw →
      wsOf (BuildGesvdDescriptor api kind itemsize b m n cuv fm) =
        .ok lw) ∧
    (∀ api kind itemsize m n cuv econ lw t,
      DtypeToSolverType kind itemsize = .ok t →
      api.borrowHandle = .ok () →
      api.createGesvdjInfo = .ok () →
      api.gesvdjBufferSize t
        (if cuv then EigMode.vector else EigMode.novector)
        econ m n m m n = .ok lw →
      wsOf (BuildGesvdjDescriptor api kind itemsize 1 m n cuv econ) =
        .ok lw) ∧
    (∀ api kind itemsize batch m n cuv econ lw t,
      DtypeToSolverType kind itemsize = .ok t →
      api.borrowHandle = .ok () →
      api.createGesvdjInfo = .ok () → batch ≠ 1 →
      api.gesvdjBatchedBufferSize t
        (if cuv then EigMode.vector else EigMode.novector)
        m n m m n batch = .ok lw →
      wsOf (BuildGesvdjDescriptor api kind itemsize batch m n cuv econ) =
        .ok lw) ∧
    (∀ api kind itemsize lower b n lw t,
      DtypeToSolverType kind itemsize = .ok t →
      api.borrowHandle = .ok () →
      api.sytrdBufferSize t
        (if lower then FillMode.lower else FillMode.upper) n n = .ok lw →
      wsOf (BuildSytrdDescriptor api kind itemsize lower b n) = .ok lw) := by
  refine ⟨?_, ?_, ?_, ?_, ?_, ?_, ?_, ?_, ?_, ?_, ?_, ?_, ?_⟩
  · intro api backend l0 kind itemsize lower n lw t h1 h2 h3
    unfold BuildPotrfDescriptor wsOf
    simp only [h1, h2, h3, if_pos rfl]
    rfl
  · intro api l0 kind itemsize lower b n t h1 h2 hb
    unfold BuildPotrfDescriptor wsOf
    simp only [h1, h2, if_neg hb]
    rfl
  · intro api l0 kind itemsize lower b n lw t h1 h2 hb h3
    unfold BuildPotrfDescriptor wsOf
    simp only [h1, h2, h3, if_neg hb]
    rfl
  · intro api kind itemsize b m n lw t h1 h2 h3
    unfold BuildGetrfDescriptor wsOf
    simp only [h1, h2, h3]
    rfl
  · intro api kind itemsize b m n lw t h1 h2 h3
    unfold BuildGeqrfDescriptor wsOf
    simp only [h1, h2, h3]
    rfl
  · intro api kind itemsize b m n k lw t h1 h2 h3
    unfold BuildOrgqrDescriptor wsOf
    simp only [h1, h2, h3]
    rfl
  · intro api kind itemsize lower b n lw t h1 h2 h3
    unfold BuildSyevdDescriptor wsOf
    simp only [h1, h2, h3]
    rfl
  · intro api kind itemsize lower n lw t h1 h2 h3 h4
    unfold BuildSyevjDescriptor wsOf
    simp only [h1, h2, h3, h4, if_pos rfl]
    rfl
  · intro api kind itemsize lower batch n lw t h1 h2 h3 hb h4
    unfold BuildSyevjDescriptor wsOf
    simp only [h1, h2, h3, h4, if_neg hb]
    rfl
  · intro api kind itemsize b m n cuv fm lw t h1 h2 h3
    unfold BuildGesvdDescriptor wsOf
    simp only [h1, h2, h3]
    rfl
  · intro api kind itemsize m n cuv econ lw t h1 h2 h3 h4
    unfold BuildGesvdjDescriptor wsOf
    simp only [h1, h2, h3, h4, if_pos rfl]
    rfl
  · intro api kind itemsize batch m n cuv econ lw t h1 h2 h3 hb h4
    unfold BuildGesvdjDescriptor wsOf
    simp only [h1, h2, h3, h4, if_neg hb]
    rfl
  · intro api kind itemsize lower b n lw t h1 h2 h3
    unfold BuildSytrdDescriptor wsOf
    simp only [h1, h2, h3]
    rfl

/-- Witness for C1 (amended): with every query reporting 5 elements, the
F32 Cholesky builder at b = 1, n = 8 returns 5 × 4 = 20 bytes, and the LU
builder returns the raw count 5. -/
theorem C1_workspace_scaling_amended_witness :
    wsOf (BuildPotrfDescriptor (constApi 5) .cuda 0 'f' 4 true 1 8) =
      .ok 20 ∧
    wsOf (BuildGetrfDescriptor (constApi 5) 'f' 4 2 8 8) = .ok 5 := by
  constructor
  · have := C1_workspace_scaling_amended.1 (constApi 5) .cuda 0 'f' 4 true
      8 5 .F32 rfl rfl rfl
    simpa using this
  · exact C1_workspace_scaling_amended.2.2.2.1 (constApi 5) 'f' 4 2 8 8 5
      .F32 rfl rfl rfl

/-- Counterexample to C1 as stated: the LU builder does not return
`lwork × element width`.  With the size query reporting lwork = 3 for an
F64 problem (element width 8 bytes), the workspace size returned to the
caller is 3, not 3 × 8 = 24. -/
theorem C1_counterexample :
    wsOf (BuildGetrfDescriptor (constApi 3) 'f' 8 1 2 2) = .ok 3 ∧
    elemBytes .F64 = 8 ∧
    wsOf (BuildGetrfDescriptor (constApi 3) 'f' 8 1 2 2) ≠
      .ok (3 * elemBytes .F64) := by
  refine ⟨by decide, by decide, by decide⟩

theorem wrapS32_wrapS64 (x : Int) : wrapS32 (wrapS64 x) = wrapS32 x := by
  unfold wrapS32 wrapS64
  dsimp only []
  split_ifs <;> omega

theorem wrapS32_eq_self (x : Int) (h : isI32 x) : wrapS32 x = x := by
  unfold isI32 at h
  unfold wrapS32
  dsimp only []
  split_ifs <;> omega

/-- C2 (amended): on the CUDA back-end with batch count b > 1, the
Cholesky builder returns workspace_size exactly `b × pointer width`,
independent of the matrix order n and of the element kind, whenever that
byte count is representable in the signed 32-bit return type; a larger
count is returned narrowed modulo 2^32 (see the counterexample). -/
theorem C2_cuda_batched_cholesky_amended (api : SolverApi) (l0 : Int)
    (kind : Char) (itemsize : Nat) (lower : Bool) (b n : Int)
    (t : SolverType)
    (h1 : DtypeToSolverType kind itemsize = .ok t)
    (h2 : api.borrowHandle = .ok ())
    (hb : 1 < b) (hrep : ptrBytes * b < 2147483648) :
    wsOf (BuildPotrfDescriptor api .cuda l0 kind itemsize lower b n) =
      .ok (ptrBytes * b) := by
  have hb1 : b ≠ 1 := by omega
  unfold BuildPotrfDescriptor wsOf
  simp only [h1, h2, if_neg hb1]
  have : wrapS32 (wrapS64 (ptrBytes * b)) = ptrBytes * b := by
    rw [wrapS32_wrapS64]
    exact wrapS32_eq_self _
      (by unfold isI32 ptrBytes; unfold ptrBytes at hrep; omega)
  rw [this]
  rfl

/-- Witness for C2 (amended): on CUDA with b = 2 (any n, any element
kind), the returned workspace size is exactly 2 × 8 = 16 bytes. -/
theorem C2_cuda_batched_cholesky_amended_witness :
    wsOf (BuildPotrfDescriptor (constApi 0) .cuda 0 'f' 4 true 2 64) =
      .ok 16 := by
  have := C2_cuda_batched_cholesky_amended (constApi 0) 0 'f' 4 true 2 64
    .F32 rfl rfl (by decide) (by decide)
  simpa using this

/-- Counterexample to C2 as stated: at b = 2^28 the byte count
`b × pointer width` is 2^31, which does not fit the signed 32-bit return
type, so the caller receives −2^31 instead of 2^31: the returned
workspace_size is not `b × sizeof(pointer)`. -/
theorem C2_counterexample :
    ptrBytes * 268435456 = 2147483648 ∧
    wsOf (BuildPotrfDescriptor (constApi 0) .cuda 0 'f' 4 true
      268435456 4) = .ok (-2147483648) ∧
    wsOf (BuildPotrfDescriptor (constApi 0) .cuda 0 'f' 4 true
      268435456 4) ≠ .ok (ptrBytes * 268435456) := by
  refine ⟨by decide, by decide, by decide⟩

/-- C10: the Cholesky builder computes its workspace byte count in a
64-bit integer and returns it through a 32-bit int: on each of its three
paths the returned value is the computed count narrowed modulo 2^32
(two's complement), and whenever the computed count is representable in a
signed 32-bit integer the returned value equals it exactly. -/
theorem C10_int32_narrowing :
    (∀ api backend l0 kind itemsize lower n lw t,
      DtypeToSolverType kind itemsize = .ok t →
      api.borrowHandle = .ok () →
      api.potrfBufferSize t
        (if lower then FillMode.lower else FillMode.upper) n n = .ok lw →
      wsOf (BuildPotrfDescriptor api backend l0 kind itemsize lower 1 n) =
        .ok (wrapS32 (lw * elemBytes t)) ∧
      (isI32 (lw * elemBytes t) →
        wsOf (BuildPotrfDescriptor api backend l0 kind itemsize lower 1 n) =
          .ok (lw * elemBytes t))) ∧
    (∀ api l0 kind itemsize lower b n t,
      DtypeToSolverType kind itemsize = .ok t →
      api.borrowHandle = .ok () → b ≠ 1 →
      wsOf (BuildPotrfDescriptor api .cuda l0 kind itemsize lower b n) =
        .ok (wrapS32 (ptrBytes * b)) ∧
      (isI32 (ptrBytes * b) →
        wsOf (BuildPotrfDescriptor api .cuda l0 kind itemsize lower b n) =
          .ok (ptrBytes * b))) ∧
    (∀ api l0 kind itemsize lower b n lw t,
      DtypeToSolverType kind itemsize = .ok t →
      api.borrowHandle = .ok () → b ≠ 1 →
      api.potrfBatchedBufferSize t
        (if lower then FillMode.lower else FillMode.upper) n n b = .ok lw →
      wsOf (BuildPotrfDescriptor api .rocm l0 kind itemsize lower b n) =
        .ok (wrapS32 (lw * elemBytes t + b * ptrBytes)) ∧
      (isI32 (lw * elemBytes t + b * ptrBytes) →
        wsOf (BuildPotrfDescriptor api .rocm l0 kind itemsize lower b n) =
          .ok (lw * elemBytes t + b * ptrBytes))) := by
  refine ⟨?_, ?_, ?_⟩
  · intro api backend l0 kind itemsize lower n lw t h1 h2 h3
    have base :
        wsOf (BuildPotrfDescriptor api backend l0 kind itemsize lower 1 n) =
          .ok (wrapS32 (wrapS64 (lw * elemBytes t))) := by
      unfold BuildPotrfDescriptor wsOf
      simp only [h1, h2, h3, if_pos rfl]
      rfl
    refine ⟨by rw [base, wrapS32_wrapS64], fun hr => ?_⟩
    rw [base, wrapS32_wrapS64, wrapS32_eq_self _ hr]
  · intro api l0 kind itemsize lower b n t h1 h2 hb
    have base :
        wsOf (BuildPotrfDescriptor api .cuda l0 kind itemsize lower b n) =
          .ok (wrapS32 (wrapS64 (ptrBytes * b))) := by
      unfold BuildPotrfDescriptor wsOf
      simp only [h1, h2, if_neg hb]
      rfl
    refine ⟨by rw [base, wrapS32_wrapS64], fun hr => ?_⟩
    rw [base, wrapS32_wrapS64, wrapS32_eq_self _ hr]
  · intro api l0 kind itemsize lower b n lw t h1 h2 hb h3
    have base :
        wsOf (BuildPotrfDescriptor api .rocm l0 kind itemsize lower b n) =
          .ok (wrapS32 (wrapS64 (lw * elemBytes t + b * ptrBytes))) := by
      unfold BuildPotrfDescriptor wsOf
      simp only [h1, h2, h3, if_neg hb]
      rfl
    refine ⟨by rw [base, wrapS32_wrapS64], fun hr => ?_⟩
    rw [base, wrapS32_wrapS64, wrapS32_eq_self _ hr]

/-- Witness for C10: with the query reporting 2^29 elements of F64 the
computed byte count is 2^32, so the returned workspace size is its 32-bit
narrowing 0; with the query reporting 5 elements the computed count 40 is
returned exactly. -/
theorem C10_int32_narrowing_witness :
    wsOf (BuildPotrfDescriptor (constApi 536870912) .rocm 0 'f' 8 true
      1 4) = .ok (wrapS32 (536870912 * elemBytes .F64)) ∧
    wrapS32 (536870912 * elemBytes .F64) = 0 ∧
    wsOf (BuildPotrfDescriptor (constApi 5) .rocm 0 'f' 8 true 1 4) =
      .ok (5 * elemBytes .F64) ∧
    (5 : Int) * elemBytes .F64 = 40 :=
  ⟨(C10_int32_narrowing.1 (constApi 536870912) .rocm 0 'f' 8 true 4
      536870912 .F64 rfl rfl rfl).1,
   by decide,
   (C10_int32_narrowing.1 (constApi 5) .rocm 0 'f' 8 true 4 5 .F64
      rfl rfl rfl).2 (by decide),
   by decide⟩

/-- C9: evidence of the uninitialised-lwork defect.  On the CUDA back-end
with b = 2 the local `int lwork;` is never assigned before packing, so the
lwork field of the packed descriptor is whatever indeterminate value the
stack slot held: two runs differing only in that indeterminate initial
value return the same workspace size but byte-for-byte different packed
descriptors, each recording the junk value. -/
theorem C9_uninitialized_lwork :
    (BuildPotrfDescriptor (constApi 7) .cuda 0 'f' 4 true 2 4).1 =
      .ok (16, packPotrf { type := .F32, uplo := .lower, b := 2, n := 4,
                           lwork := 0 }) ∧
    (BuildPotrfDescriptor (constApi 7) .cuda 1 'f' 4 true 2 4).1 =
      .ok (16, packPotrf { type := .F32, uplo := .lower, b := 2, n := 4,
                           lwork := 1 }) ∧
    (BuildPotrfDescriptor (constApi 7) .cuda 0 'f' 4 true 2 4).1 ≠
      (BuildPotrfDescriptor (constApi 7) .cuda 1 'f' 4 true 2 4).1 := by
  refine ⟨by decide, by decide, by decide⟩

/-! ### Determinism lemmas: the result of each builder depends only on its
arguments and on the answers of the API entry points it consults. -/

theorem potrfWsJunkIndep (api : SolverApi) (backend : Backend)
    (l0 l0' : Int) (kind : Char) (itemsize : Nat) (lower : Bool)
    (b n : Int) :
    wsOf (BuildPotrfDescriptor api backend l0 kind itemsize lower b n) =
      wsOf (BuildPotrfDescriptor api backend l0' kind itemsize lower b n) := by
  unfold BuildPotrfDescriptor wsOf
  cases h1 : DtypeToSolverType kind itemsize with
  | error e => rfl
  | ok t =>
    cases h2 : api.borrowHandle with
    | error e => rfl
    | ok u =>
      dsimp only []
      by_cases hb : b = 1
      · simp only [if_pos hb]
      · simp only [if_neg hb]
        cases backend with
        | cuda => rfl
        | rocm => rfl

theorem potrfJunkIndepOffPath (api : SolverApi) (backend : Backend)
    (l0 l0' : Int) (kind : Char) (itemsize : Nat) (lower : Bool)
    (b n : Int) (h : backend = .rocm ∨ b = 1) :
    BuildPotrfDescriptor api backend l0 kind itemsize lower b n =
      BuildPotrfDescriptor api backend l0' kind itemsize lower b n := by
  unfold BuildPotrfDescriptor
  cases h1 : DtypeToSolverType kind itemsize with
  | error e => rfl
  | ok t =>
    cases h2 : api.borrowHandle with
    | error e => rfl
    | ok u =>
      dsimp only []
      by_cases hb : b = 1
      · simp only [if_pos hb]
      · simp only [if_neg hb]
        rcases h with hr | hb1
        · subst hr
          rfl
        · exact absurd hb1 hb

theorem potrfDeterministic (o1 o2 : SolverApi) (backend : Backend)
    (l0 : Int) (kind : Char) (itemsize : Nat) (lower : Bool) (b n : Int)
    (hb : o1.borrowHandle = o2.borrowHandle)
    (hq : o1.potrfBufferSize = o2.potrfBufferSize)
    (hqb : o1.potrfBatchedBufferSize = o2.potrfBatchedBufferSize) :
    BuildPotrfDescriptor o1 backend l0 kind itemsize lower b n =
      BuildPotrfDescriptor o2 backend l0 kind itemsize lower b n := by
  unfold BuildPotrfDescriptor
  rw [hb, hq, hqb]

theorem getrfDeterministic (o1 o2 : SolverApi) (kind : Char)
    (itemsize : Nat) (b m n : Int)
    (hb : o1.borrowHandle = o2.borrowHandle)
    (hq : o1.getrfBufferSize = o2.getrfBufferSize) :
    BuildGetrfDescriptor o1 kind itemsize b m n =
      BuildGetrfDescriptor o2 kind itemsize b m n := by
  unfold BuildGetrfDescriptor
  rw [hb, hq]

theorem geqrfDeterministic (o1 o2 : SolverApi) (kind : Char)
    (itemsize : Nat) (b m n : Int)
    (hb : o1.borrowHandle = o2.borrowHandle)
    (hq : o1.geqrfBufferSize = o2.geqrfBufferSize) :
    BuildGeqrfDescriptor o1 kind itemsize b m n =
      BuildGeqrfDescriptor o2 kind itemsize b m n := by
  unfold BuildGeqrfDescriptor
  rw [hb, hq]

theorem orgqrDeterministic (o1 o2 : SolverApi) (kind : Char)
    (itemsize : Nat) (b m n k : Int)
    (hb : o1.borrowHandle = o2.borrowHandle)
    (hq : o1.orgqrBufferSize = o2.orgqrBufferSize) :
    BuildOrgqrDescriptor o1 kind itemsize b m n k =
      BuildOrgqrDescriptor o2 kind itemsize b m n k := by
  unfold BuildOrgqrDescriptor
  rw [hb, hq]

theorem syevdDeterministic (o1 o2 : SolverApi) (kind : Char)
    (itemsize : Nat) (lower : Bool) (b n : Int)
    (hb : o1.borrowHandle = o2.borrowHandle)
    (hq : o1.syevdBufferSize = o2.syevdBufferSize) :
    BuildSyevdDescriptor o1 kind itemsize lower b n =
      BuildSyevdDescriptor o2 kind itemsize lower b n := by
  unfold BuildSyevdDescriptor
  rw [hb, hq]

theorem syevjDeterministic (o1 o2 : SolverApi) (kind : Char)
    (itemsize : Nat) (lower : Bool) (batch n : Int)
    (hb : o1.borrowHandle = o2.borrowHandle)
    (hc : o1.createSyevjInfo = o2.createSyevjInfo)
    (hq : o1.syevjBufferSize = o2.syevjBufferSize)
    (hqb : o1.syevjBatchedBufferSize = o2.syevjBatchedBufferSize) :
    BuildSyevjDescriptor o1 kind itemsize lower batch n =
      BuildSyevjDescriptor o2 kind itemsize lower batch n := by
  unfold BuildSyevjDescriptor
  rw [hb, hc, hq, hqb]

theorem gesvdDeterministic (o1 o2 : SolverApi) (kind : Char)
    (itemsize : Nat) (b m n : Int) (cuv fm : Bool)
    (hb : o1.borrowHandle = o2.borrowHandle)
    (hq : o1.gesvdBufferSize = o2.gesvdBufferSize) :
    BuildGesvdDescriptor o1 kind itemsize b m n cuv fm =
      BuildGesvdDescriptor o2 kind itemsize b m n cuv fm := by
  unfold BuildGesvdDescriptor
  rw [hb, hq]

theorem gesvdjDeterministic (o1 o2 : SolverApi) (kind : Char)
    (itemsize : Nat) (batch m n : Int) (cuv : Bool) (econ : Int)
    (hb : o1.borrowHandle = o2.borrowHandle)
    (hc : o1.createGesvdjInfo = o2.createGesvdjInfo)
    (hq : o1.gesvdjBufferSize = o2.gesvdjBufferSize)
    (hqb : o1.gesvdjBatchedBufferSize = o2.gesvdjBatchedBufferSize) :
    BuildGesvdjDescriptor o1 kind itemsize batch m n cuv econ =
      BuildGesvdjDescriptor o2 kind itemsize batch m n cuv econ := by
  unfold BuildGesvdjDescriptor
  rw [hb, hc, hq, hqb]

theorem sytrdDeterministic (o1 o2 : SolverApi) (kind : Char)
    (itemsize : Nat) (lower : Bool) (b n : Int)
    (hb : o1.borrowHandle = o2.borrowHandle)
    (hq : o1.sytrdBufferSize = o2.sytrdBufferSize) :
    BuildSytrdDescriptor o1 kind itemsize lower b n =
      BuildSytrdDescriptor o2 kind itemsize lower b n := by
  unfold BuildSytrdDescriptor
  rw [hb, hq]

/-- C8 (amended): for every operation family, with fixed inputs and with
the consulted API entry points answering identically, two builder calls
return identical results — workspace size and packed bytes — except that
on the CUDA batched Cholesky path the packed descriptor embeds the
indeterminate initial value of the local `lwork`, so there only the
workspace size (and, off that path, also the packed bytes) is
reproducible. -/
theorem C8_determinism_amended :
    (∀ o1 o2 backend l0 kind itemsize lower b n,
      o1.borrowHandle = o2.borrowHandle →
      o1.potrfBufferSize = o2.potrfBufferSize →
      o1.potrfBatchedBufferSize = o2.potrfBatchedBufferSize →
      BuildPotrfDescriptor o1 backend l0 kind itemsize lower b n =
        BuildPotrfDescriptor o2 backend l0 kind itemsize lower b n) ∧
    (∀ api backend l0 l0' kind itemsize lower b n,
      wsOf (BuildPotrfDescriptor api backend l0 kind itemsize lower b n) =
        wsOf
          (BuildPotrfDescriptor api backend l0' kind itemsize lower b n)) ∧
    (∀ api backend l0 l0' kind itemsize lower b n,
      backend = .rocm ∨ b = 1 →
      BuildPotrfDescriptor api backend l0 kind itemsize lower b n =
        BuildPotrfDescriptor api backend l0' kind itemsize lower b n) ∧
    (∀ o1 o2 kind itemsize b m n,
      o1.borrowHandle = o2.borrowHandle →
      o1.getrfBufferSize = o2.getrfBufferSize →
      BuildGetrfDescriptor o1 kind itemsize b m n =
        BuildGetrfDescriptor o2 kind itemsize b m n) ∧
    (∀ o1 o2 kind itemsize b m n,
      o1.borrowHandle = o2.borrowHandle →
      o1.geqrfBufferSize = o2.geqrfBufferSize →
      BuildGeqrfDescriptor o1 kind itemsize b m n =
        BuildGeqrfDescriptor o2 kind itemsize b m n) ∧
    (∀ o1 o2 kind itemsize b m n k,
      o1.borrowHandle = o2.borrowHandle →
      o1.orgqrBufferSize = o2.orgqrBufferSize →
      BuildOrgqrDescriptor o1 kind itemsize b m n k =
        BuildOrgqrDescriptor o2 kind itemsize b m n k) ∧
    (∀ o1 o2 kind itemsize lower b n,
      o1.borrowHandle = o2.borrowHandle →
      o1.syevdBufferSize = o2.syevdBufferSize →
      BuildSyevdDescriptor o1 kind itemsize lower b n =
        BuildSyevdDescriptor o2 kind itemsize lower b n) ∧
    (∀ o1 o2 kind itemsize lower batch n,
      o1.borrowHandle = o2.borrowHandle →
      o1.createSyevjInfo = o2.createSyevjInfo →
      o1.syevjBufferSize = o2.syevjBufferSize →
      o1.syevjBatchedBufferSize = o2.syevjBatchedBufferSize →
      BuildSyevjDescriptor o1 kind itemsize lower batch n =
        BuildSyevjDescriptor o2 kind itemsize lower batch n) ∧
    (∀ o1 o2 kind itemsize b m n cuv fm,
      o1.borrowHandle = o2.borrowHandle →
      o1.gesvdBufferSize = o2.gesvdBufferSize →
      BuildGesvdDescriptor o1 kind itemsize b m n cuv fm =
        BuildGesvdDescriptor o2 kind itemsize b m n cuv fm) ∧
    (∀ o1 o2 kind itemsize batch m n cuv econ,
      o1.borrowHandle = o2.borrowHandle →
      o1.createGesvdjInfo = o2.createGesvdjInfo →
      o1.gesvdjBufferSize = o2.gesvdjBufferSize →
      o1.gesvdjBatchedBufferSize = o2.gesvdjBatchedBufferSize →
      BuildGesvdjDescriptor o1 kind itemsize batch m n cuv econ =
        BuildGesvdjDescriptor o2 kind itemsize batch m n cuv econ) ∧
    (∀ o1 o2 kind itemsize lower b n,
      o1.borrowHandle = o2.borrowHandle →
      o1.sytrdBufferSize = o2.sytrdBufferSize →
      BuildSytrdDescriptor o1 kind itemsize lower b n =
        BuildSytrdDescriptor o2 kind itemsize lower b n) :=
  ⟨potrfDeterministic, potrfWsJunkIndep, potrfJunkIndepOffPath,
   getrfDeterministic, geqrfDeterministic, orgqrDeterministic,
   syevdDeterministic, syevjDeterministic, gesvdDeterministic,
   gesvdjDeterministic, sytrdDeterministic⟩

/-- Witness for C8 (amended): concrete applications — on the non-CUDA
back-end the batched Cholesky result is reproducible across different
indeterminate initial lwork values, and the LU builder is reproducible
across two APIs with identical answers. -/
theorem C8_determinism_amended_witness :
    BuildPotrfDescriptor (constApi 3) .rocm 0 'f' 4 true 2 4 =
      BuildPotrfDescriptor (constApi 3) .rocm 9 'f' 4 true 2 4 ∧
    BuildGetrfDescriptor (constApi 3) 'f' 4 1 2 2 =
      BuildGetrfDescriptor (constApi 3) 'f' 4 1 2 2 :=
  ⟨C8_determinism_amended.2.2.1 (constApi 3) .rocm 0 9 'f' 4 true 2 4
     (Or.inl rfl),
   C8_determinism_amended.2.2.2.1 (constApi 3) (constApi 3) 'f' 4 1 2 2
     rfl rfl⟩

/-- Counterexample to C8 as stated: on the CUDA batched Cholesky path,
two calls with identical arguments and identical API answers, differing
only in the indeterminate initial value of the uninitialised local
`lwork` (0 in one run, 1 in the other), return the same workspace size
but packed descriptors that are not byte-for-byte identical. -/
theorem C8_counterexample :
    wsOf (BuildPotrfDescriptor (constApi 7) .cuda 0 'f' 4 true 2 4) =
      wsOf (BuildPotrfDescriptor (constApi 7) .cuda 1 'f' 4 true 2 4) ∧
    (BuildPotrfDescriptor (constApi 7) .cuda 0 'f' 4 true 2 4).1 ≠
      (BuildPotrfDescriptor (constApi 7) .cuda 1 'f' 4 true 2 4).1 := by
  refine ⟨by decide, by decide⟩

/-- C4: for every operation family and every constructible descriptor
record (fields within their C++ types' ranges), packing followed by
unpacking yields the original record; pack itself is total with no
failure path. -/
theorem C4_pack_unpack_roundtrip :
    (∀ d : PotrfDescriptor, d.wf → unpackPotrf (packPotrf d) = some d) ∧
    (∀ d : GetrfDescriptor, d.wf → unpackGetrf (packGetrf d) = some d) ∧
    (∀ d : GeqrfDescriptor, d.wf → unpackGeqrf (packGeqrf d) = some d) ∧
    (∀ d : CsrlsvqrDescriptor, d.wf →
      unpackCsrlsvqr (packCsrlsvqr d) = some d) ∧
    (∀ d : OrgqrDescriptor, d.wf → unpackOrgqr (packOrgqr d) = some d) ∧
    (∀ d : SyevdDescriptor, d.wf → unpackSyevd (packSyevd d) = some d) ∧
    (∀ d : SyevjDescriptor, d.wf → unpackSyevj (packSyevj d) = some d) ∧
    (∀ d : GesvdDescriptor, d.wf → unpackGesvd (packGesvd d) = some d) ∧
    (∀ d : GesvdjDescriptor, d.wf → unpackGesvdj (packGesvdj d) = some d) ∧
    (∀ d : SytrdDescriptor, d.wf → unpackSytrd (packSytrd d) = some d) :=
  ⟨unpackPotrf_packPotrf, unpackGetrf_packGetrf, unpackGeqrf_packGeqrf,
   unpackCsrlsvqr_packCsrlsvqr, unpackOrgqr_packOrgqr,
   unpackSyevd_packSyevd, unpackSyevj_packSyevj, unpackGesvd_packGesvd,
   unpackGesvdj_packGesvdj, unpackSytrd_packSytrd⟩

/-- Witness for C4: the round trip evaluated on a concrete Cholesky
descriptor (F64, lower, b = 1, n = 128, lwork = 33) and a concrete SVD
descriptor with job flags 'A' = 65. -/
theorem C4_pack_unpack_roundtrip_witness :
    unpackPotrf (packPotrf ⟨.F64, .lower, 1, 128, 33⟩) =
      some ⟨.F64, .lower, 1, 128, 33⟩ ∧
    unpackGesvd (packGesvd ⟨.C128, 2, 5, 3, 77, 65, 65⟩) =
      some ⟨.C128, 2, 5, 3, 77, 65, 65⟩ :=
  ⟨C4_pack_unpack_roundtrip.1 ⟨.F64, .lower, 1, 128, 33⟩ (by decide),
   C4_pack_unpack_roundtrip.2.2.2.2.2.2.2.1 ⟨.C128, 2, 5, 3, 77, 65, 65⟩
     (by decide)⟩

/-- C6: the dense-algorithm SVD builder sets both job flags to 'A' (65)
when compute_uv and full_matrices hold, both to 'S' (83) when compute_uv
holds and full_matrices does not, and both to 'N' (78) when compute_uv
does not hold; the flags are recorded in the packed descriptor, which
unpacks to the record carrying them in its jobu and jobvt fields. -/
theorem C6_gesvd_job_flags (api : SolverApi) (kind : Char)
    (itemsize : Nat) (b m n : Int) (cuv fm : Bool) (lw : Int)
    (t : SolverType)
    (h1 : DtypeToSolverType kind itemsize = .ok t)
    (h2 : api.borrowHandle = .ok ())
    (h3 : api.gesvdBufferSize t
      (if cuv then (if fm then ('A'.toNat : Int) else ('S'.toNat : Int))
       else ('N'.toNat : Int))
      (if cuv then (if fm then ('A'.toNat : Int) else ('S'.toNat : Int))
       else ('N'.toNat : Int)) m n = .ok lw)
    (hb : isI32 b) (hm : isI32 m) (hn : isI32 n) (hw : isI32 lw) :
    (BuildGesvdDescriptor api kind itemsize b m n cuv fm).1 =
      .ok (lw, packGesvd ⟨t, b, m, n, lw,
        (if cuv then (if fm then ('A'.toNat : Int) else ('S'.toNat : Int))
         else ('N'.toNat : Int)),
        (if cuv then (if fm then ('A'.toNat : Int) else ('S'.toNat : Int))
         else ('N'.toNat : Int))⟩) ∧
    unpackGesvd (packGesvd ⟨t, b, m, n, lw,
        (if cuv then (if fm then ('A'.toNat : Int) else ('S'.toNat : Int))
         else ('N'.toNat : Int)),
        (if cuv then (if fm then ('A'.toNat : Int) else ('S'.toNat : Int))
         else ('N'.toNat : Int))⟩) =
      some ⟨t, b, m, n, lw,
        (if cuv then (if fm then ('A'.toNat : Int) else ('S'.toNat : Int))
         else ('N'.toNat : Int)),
        (if cuv then (if fm then ('A'.toNat : Int) else ('S'.toNat : Int))
         else ('N'.toNat : Int))⟩ := by
  constructor
  · unfold BuildGesvdDescriptor
    simp only [h1, h2, h3]
  · apply unpackGesvd_packGesvd
    refine ⟨hb, hm, hn, hw, ?_, ?_⟩ <;>
      (cases cuv <;> cases fm <;> (dsimp only []; decide))

/-- Witness for C6: with compute_uv true and full_matrices false both
flags are 'S' (83); evaluated at a concrete F32 problem whose query
reports 5 elements. -/
theorem C6_gesvd_job_flags_witness :
    (BuildGesvdDescriptor (constApi 5) 'f' 4 1 3 2 true false).1 =
      .ok (5, packGesvd ⟨.F32, 1, 3, 2, 5, ('S'.toNat : Int),
        ('S'.toNat : Int)⟩) := by
  have := C6_gesvd_job_flags (constApi 5) 'f' 4 1 3 2 true false 5 .F32
    rfl rfl rfl (by decide) (by decide) (by decide) (by decide)
  simpa using this.1

/-- C7: for the LU builder the size query receives the leading dimension
`lda = m` (the result depends only on the query's answers at arguments
`(m, n, lda = m)`), the workspace size does not depend on the batch count
b, and the packed descriptor records the batch field b — at C64, b = 4,
m = 64, n = 32 the descriptor unpacks with batch field 4. -/
theorem C7_getrf_lda_batch :
    (∀ o1 o2 kind itemsize b m n,
      o1.borrowHandle = o2.borrowHandle →
      (∀ t, o1.getrfBufferSize t m n m = o2.getrfBufferSize t m n m) →
      BuildGetrfDescriptor o1 kind itemsize b m n =
        BuildGetrfDescriptor o2 kind itemsize b m n) ∧
    (∀ api kind itemsize b b' m n,
      wsOf (BuildGetrfDescriptor api kind itemsize b m n) =
        wsOf (BuildGetrfDescriptor api kind itemsize b' m n)) ∧
    (BuildGetrfDescriptor (constApi 9) 'c' 8 4 64 32).1 =
      .ok (9, packGetrf ⟨.C64, 4, 64, 32, 9⟩) ∧
    unpackGetrf (packGetrf ⟨.C64, 4, 64, 32, 9⟩) =
      some ⟨.C64, 4, 64, 32, 9⟩ := by
  refine ⟨?_, ?_, by decide, by decide⟩
  · intro o1 o2 kind itemsize b m n hb hq
    unfold BuildGetrfDescriptor
    cases h1 : DtypeToSolverType kind itemsize with
    | error e => rfl
    | ok t =>
      dsimp only []
      rw [hb]
      cases h2 : o2.borrowHandle with
      | error e => rfl
      | ok u =>
        dsimp only []
        rw [hq t]
  · intro api kind itemsize b b' m n
    unfold BuildGetrfDescriptor wsOf
    cases h1 : DtypeToSolverType kind itemsize with
    | error e => rfl
    | ok t =>
      dsimp only []
      cases h2 : api.borrowHandle with
      | error e => rfl
      | ok u =>
        dsimp only []
        cases h3 : api.getrfBufferSize t m n m with
        | error e => rfl
        | ok lw => rfl

/-- Witness for C7: the two universally quantified parts applied at the
concrete C64 example (batch 4 versus batch 7 for batch independence). -/
theorem C7_getrf_lda_batch_witness :
    BuildGetrfDescriptor (constApi 9) 'c' 8 4 64 32 =
      BuildGetrfDescriptor (constApi 9) 'c' 8 4 64 32 ∧
    wsOf (BuildGetrfDescriptor (constApi 9) 'c' 8 4 64 32) =
      wsOf (BuildGetrfDescriptor (constApi 9) 'c' 8 7 64 32) :=
  ⟨C7_getrf_lda_batch.1 (constApi 9) (constApi 9) 'c' 8 4 64 32 rfl
     (fun _ => rfl),
   C7_getrf_lda_batch.2.1 (constApi 9) 'c' 8 4 7 64 32⟩
